import Mathlib

/-!
# Verification of the chat relay's membership / broadcast core

Shallow embedding of `src/main.py` (and the parts of `src/auth.py` the
claims touch).  The mutable server state is
`state.room_members : Dict[int, Set[str]]` (a `defaultdict(set)`); we
model it as an association list from room ids to duplicate-free member
lists, in dict insertion order.  Socket event handlers are modelled as
pure functions from their inputs (the connection `sid`, the stored
session, the parsed client `data` dict, and the external-store oracles,
passed as function arguments) to an `Effects` record collecting the
outbound emits, the new membership table, and the store calls / spawned
background tasks, in program order.
-/

/-- A Python value that can appear in the client's `data` dict under
`"room_id"`: an int, a string, or `None`.  (`data.get(...)` returns
`None` when the key is absent; we fold that into `vNone`.) -/
inductive PyVal where
  | vInt : Int → PyVal
  | vStr : String → PyVal
  | vNone : PyVal
deriving DecidableEq, Repr

/-- Python truthiness of a `PyVal` (`not room_id_raw` in the source):
`0`, `""` and `None` are falsy. -/
def truthy : PyVal → Bool
  | .vInt n => n ≠ 0
  | .vStr s => s ≠ ""
  | .vNone => false

/-- Python `str(v)`. -/
def pyStr : PyVal → String
  | .vInt n => toString n
  | .vStr s => s
  | .vNone => "None"

/-- Python `s.isdigit()` for the ASCII strings the model ranges over:
nonempty and every character a decimal digit. -/
def isdigitStr (s : String) : Bool := s != "" && s.data.all (·.isDigit)

/-- Decimal value of a digit string (the value Python's `int(...)`
returns on the inputs that pass the `isdigit` guard). -/
def strToNat (s : String) : Nat :=
  s.data.foldl (fun a c => a * 10 + (c.toNat - 48)) 0

/-- Python `s.strip()`: drop leading and trailing whitespace. -/
def pyStrip (s : String) : String :=
  ⟨((s.data.dropWhile Char.isWhitespace).reverse.dropWhile Char.isWhitespace).reverse⟩

/-- Python `int(room_id_raw)` on a value that passed the
`str(room_id_raw).isdigit()` guard. -/
def pyToNat (v : PyVal) : Nat := strToNat (pyStr v)

/-- A persisted message row as returned by `save_message_db` (the
store's `return=representation` payload, including server-assigned
fields). -/
structure Msg where
  id : Nat
  room_id : Nat
  user_email : String
  content : String
  is_bot_response : Bool
deriving DecidableEq, Repr

/-- A room row as returned by `find_room_by_id_db` / `create_room_db`. -/
structure Room where
  id : Nat
  name : String
deriving DecidableEq, Repr

/-- Payload of an outbound `sio.emit`. -/
inductive Payload where
  | errMsg : String → Payload
  | msg : Msg → Payload
  | msgList : List Msg → Payload
  | roomId : Nat → Payload
  | room : Room → Payload
deriving DecidableEq, Repr

/-- One outbound `sio.emit(event, payload, to=target)`. -/
structure Emit where
  event : String
  target : String
  payload : Payload
deriving DecidableEq, Repr

/-- `state.room_members`: room id → member set, as an association list
in dict insertion order; member lists model Python sets (no
duplicates). -/
abbrev RoomTable := List (Nat × List String)

/-- `state.room_members.get(room_id, set())`: member set of a room,
empty when the key is absent. -/
def membersOf (rid : Nat) : RoomTable → List String
  | [] => []
  | (r, ms) :: t => if r = rid then ms else membersOf rid t

/-- Python `set.add`: append the element unless already present. -/
def setAdd (c : String) (l : List String) : List String :=
  if c ∈ l then l else l ++ [c]

/-- `state.room_members[room_id].add(sid)` on the `defaultdict(set)`:
add `sid` to the room's set, creating the entry (at the end, dict
insertion order) when absent. -/
def tableJoin (rid : Nat) (sid : String) : RoomTable → RoomTable
  | [] => [(rid, [sid])]
  | (r, ms) :: t =>
    if r = rid then (r, setAdd sid ms) :: t
    else (r, ms) :: tableJoin rid sid t

/-- The membership mutation of the `disconnect` handler
(`src/main.py` lines 204-209): for each room key (a snapshot,
`list(state.room_members)`), if `sid` is a member remove it, and delete
the key if the set became empty. -/
def disconnectTable (sid : String) : RoomTable → RoomTable
  | [] => []
  | (r, ms) :: t =>
    if sid ∈ ms then
      if ms.erase sid = [] then disconnectTable sid t
      else (r, ms.erase sid) :: disconnectTable sid t
    else (r, ms) :: disconnectTable sid t

/-- The room ids present as keys of the table. -/
def roomIds (t : RoomTable) : List Nat := t.map Prod.fst

example : membersOf 1 [(1, ["A", "B"]), (2, ["A"])] = ["A", "B"] := by decide
example : disconnectTable "A" [(1, ["A", "B"]), (2, ["A"])] = [(1, ["B"])] := by decide
example : tableJoin 2 "B" [(1, ["A"])] = [(1, ["A"]), (2, ["B"])] := by decide
example : tableJoin 1 "A" [(1, ["A"])] = [(1, ["A"])] := by decide

/-! ## The socket event handlers -/

/-- The constant `BOT_USER_EMAIL` of `src/main.py`. -/
def BOT_USER_EMAIL : String := "gemini-bot@example.com"

/-- The constant `BOT_ROOM_ID` of `src/main.py`. -/
def BOT_ROOM_ID : Nat := 2

/-- A stored socket session: the dict saved by `connect`
(`{"user_email": email}`), modelled as a key/value list. -/
abbrev SessionD := List (String × String)

/-- The parsed client `data` dict: the fields the handlers read.  A
missing key is `none`; `content` / `room_name`, when present, are
strings (the only case the source's `.strip()` supports). -/
structure ClientData where
  room_id : Option PyVal
  content : Option String
  room_name : Option String
deriving DecidableEq, Repr

/-- `(data or {}).get("room_id")`: `None` when `data` is falsy or the
key is absent. -/
def rawRoomId : Option ClientData → PyVal
  | none => .vNone
  | some d => d.room_id.getD .vNone

/-- `(data or {}).get("content", "")`. -/
def rawContent : Option ClientData → String
  | none => ""
  | some d => d.content.getD ""

/-- `(data or {}).get("room_name", "")`. -/
def rawRoomName : Option ClientData → String
  | none => ""
  | some d => d.room_name.getD ""

/-- `_get_validated_session` (lines 165-171), reduced to the identity it
yields: `none` when the session is missing/falsy or has no
`"user_email"` key (the handler then emits the auth error and stops),
otherwise the stored email. -/
def get_validated_email : Option SessionD → Option String
  | none => none
  | some d => List.lookup "user_email" d

/-- Everything a handler invocation does besides returning: outbound
emits, the membership table after the call, and the store calls /
spawned background tasks, each in program order.  `saveCalls` are
`save_message_db(room_id, user_email, content, is_bot)` arguments,
`findCalls` are `find_room_by_id_db` room ids, `createCalls` are
`create_room_db` names, `listCalls` are `get_messages_for_room_db` room
ids, `botTasks` are spawned `_handle_bot_reply(room_id, content)`
arguments, `partTasks` are spawned `add_participant_db(room_id, email)`
arguments. -/
structure Effects where
  emits : List Emit
  table : RoomTable
  saveCalls : List (Nat × String × String × Bool)
  findCalls : List Nat
  createCalls : List String
  listCalls : List Nat
  botTasks : List (Nat × String)
  partTasks : List (Nat × String)
deriving DecidableEq, Repr

/-- A handler invocation that does nothing: no emits, table unchanged,
no store calls, no background tasks. -/
def noEffects (t : RoomTable) : Effects := ⟨[], t, [], [], [], [], [], []⟩

/-- The emit `_get_validated_session` sends before returning `None`. -/
def authErrorEmit (sid : String) : Emit :=
  ⟨"error", sid, .errMsg "Authentication error. Please reconnect."⟩

/-- The `send_message` handler (lines 249-268).  The store is the
oracle `saveDb` (the result of `save_message_db` as a function of its
arguments).  The fan-out loop is modelled here in its sequential,
interference-free run: one `new_message` emit per member of
`state.room_members.get(room_id, set())`; the loop's live-set iteration
under concurrent mutation and under emit failure is modelled separately
below (`brun`, `emitLoop`). -/
def send_message (sid : String) (sess : Option SessionD) (data : Option ClientData)
    (saveDb : Nat → String → String → Bool → Option Msg) (t : RoomTable) : Effects :=
  match get_validated_email sess with
  | none => { noEffects t with emits := [authErrorEmit sid] }
  | some email =>
    let rv := rawRoomId data
    let content := pyStrip (rawContent data)
    if !truthy rv || !isdigitStr (pyStr rv) || content == "" then noEffects t
    else
      let rid := pyToNat rv
      match saveDb rid email content false with
      | some m =>
        { noEffects t with
          emits := (membersOf rid t).map (fun c => ⟨"new_message", c, .msg m⟩),
          saveCalls := [(rid, email, content, false)],
          botTasks := if rid = BOT_ROOM_ID then [(rid, content)] else [] }
      | none => { noEffects t with saveCalls := [(rid, email, content, false)] }

/-- The `_handle_bot_reply` task body (lines 150-163).  `gemini` is the
reply oracle: the text `get_gemini_response` returns for the user
message (that helper never raises — it substitutes a fallback string on
API failure, so its result is always a string). -/
def handle_bot_reply (room_id : Nat) (user_message : String) (gemini : String → String)
    (saveDb : Nat → String → String → Bool → Option Msg) (t : RoomTable) : Effects :=
  let reply_text := gemini user_message
  match saveDb room_id BOT_USER_EMAIL reply_text true with
  | some m =>
    { noEffects t with
      emits := (membersOf room_id t).map (fun c => ⟨"new_message", c, .msg m⟩),
      saveCalls := [(room_id, BOT_USER_EMAIL, reply_text, true)] }
  | none => { noEffects t with saveCalls := [(room_id, BOT_USER_EMAIL, reply_text, true)] }

/-- The `join_room` handler (lines 230-247).  `findDb` is the store's
`find_room_by_id_db` oracle. -/
def join_room (sid : String) (sess : Option SessionD) (data : Option ClientData)
    (findDb : Nat → Option Room) (t : RoomTable) : Effects :=
  match get_validated_email sess with
  | none => { noEffects t with emits := [authErrorEmit sid] }
  | some email =>
    let rv := rawRoomId data
    if !truthy rv || !isdigitStr (pyStr rv) then
      { noEffects t with emits := [⟨"error", sid, .errMsg "A valid Room ID is required"⟩] }
    else
      let rid := pyToNat rv
      match findDb rid with
      | none =>
        { noEffects t with
          emits := [⟨"error", sid,
            .errMsg ("Room with ID '" ++ toString rid ++ "' not found.")⟩],
          findCalls := [rid] }
      | some _ =>
        { noEffects t with
          emits := [⟨"room_joined", sid, .roomId rid⟩],
          table := tableJoin rid sid t,
          findCalls := [rid],
          partTasks := [(rid, email)] }

/-- The `create_room` handler (lines 215-228).  `createDb` is the
store's `create_room_db` oracle. -/
def create_room (sid : String) (sess : Option SessionD) (data : Option ClientData)
    (createDb : String → Option Room) (t : RoomTable) : Effects :=
  match get_validated_email sess with
  | none => { noEffects t with emits := [authErrorEmit sid] }
  | some _ =>
    let room_name := pyStrip (rawRoomName data)
    if room_name == "" then
      { noEffects t with emits := [⟨"error", sid, .errMsg "Room name cannot be empty"⟩] }
    else
      match createDb room_name with
      | some r =>
        { noEffects t with
          emits := [⟨"room_created", sid, .room r⟩],
          createCalls := [room_name] }
      | none =>
        { noEffects t with
          emits := [⟨"error", sid, .errMsg "Could not create room"⟩],
          createCalls := [room_name] }

/-- The `request_past_messages` handler (lines 270-280).  `listDb` is
the store's `get_messages_for_room_db` oracle. -/
def request_past_messages (sid : String) (sess : Option SessionD) (data : Option ClientData)
    (listDb : Nat → Option (List Msg)) (t : RoomTable) : Effects :=
  match get_validated_email sess with
  | none => { noEffects t with emits := [authErrorEmit sid] }
  | some _ =>
    let rv := rawRoomId data
    if !truthy rv || !isdigitStr (pyStr rv) then
      { noEffects t with emits := [⟨"error", sid, .errMsg "Valid room_id is required"⟩] }
    else
      match listDb (pyToNat rv) with
      | some msgs =>
        { noEffects t with
          emits := [⟨"past_messages", sid, .msgList msgs⟩],
          listCalls := [pyToNat rv] }
      | none => { noEffects t with listCalls := [pyToNat rv] }

/-!
## The fan-out loop under concurrent membership mutation

The broadcast loops of `send_message` (lines 264-265) and
`_handle_bot_reply` (lines 162-163) are
`for member_sid in state.room_members.get(room_id, set()): await
sio.emit(...)`: they iterate the *live* member set — no copy is taken —
and each `await sio.emit` is a suspension point at which a concurrently
scheduled `join_room`, `disconnect` or bot task may mutate that same
set.  A CPython set iterator records the set's size at creation and
raises `RuntimeError` from `next()` whenever the current size differs.
We model one in-flight broadcast over one room's set as a small-step
system: `BAct.next` resumes the loop (delivering to the next member, or
raising if the live size changed), `BAct.join c` / `BAct.leave c` are
concurrent mutations of the room's member set run while the loop is
suspended at the `await`.
-/

/-- Configuration of one in-flight broadcast loop: the room's live
member set, the iterator's pending members, the size the iterator
recorded at creation, the members already delivered to, and whether the
iterator has raised `RuntimeError`. -/
structure IterCfg where
  live : List String
  pending : List String
  startSize : Nat
  delivered : List String
  raised : Bool
deriving DecidableEq, Repr

/-- Interleaved actions while a broadcast is in flight. -/
inductive BAct where
  | next
  | join : String → BAct
  | leave : String → BAct
deriving DecidableEq, Repr

/-- One step of the interleaved execution. -/
def bstep (g : IterCfg) : BAct → IterCfg
  | .join c => { g with live := setAdd c g.live }
  | .leave c => { g with live := g.live.erase c }
  | .next =>
    if g.raised then g
    else
      match g.pending with
      | [] => g
      | c :: rest =>
        if g.live.length ≠ g.startSize then { g with raised := true }
        else { g with pending := rest, delivered := g.delivered ++ [c] }

/-- Run a finite interleaving. -/
def brun (acts : List BAct) (g : IterCfg) : IterCfg := acts.foldl bstep g

/-- The configuration at the moment the loop starts: the iterator is
created on the live set and records its size. -/
def binit (members : List String) : IterCfg :=
  ⟨members, members, members.length, [], false⟩

/-- The broadcast has finished executing: either the loop consumed its
iterator, or the iterator raised (the exception propagates and the loop
is abandoned). -/
def bfinished (g : IterCfg) : Bool := g.raised || g.pending.isEmpty

/-!
## The fan-out loop under per-member emit failure

Neither broadcast loop wraps `await sio.emit(...)` in `try/except`:
a delivery failure for one member propagates out of the loop.
`emitLoop fails members` runs the loop where `fails c` says the emit to
`c` raises; it returns the members actually delivered to and whether an
exception propagated to the code after the loop. -/
def emitLoop (fails : String → Bool) : List String → List String × Bool
  | [] => ([], false)
  | c :: rest =>
    if fails c then ([], true)
    else
      let r := emitLoop fails rest
      (c :: r.1, r.2)

/-!
## Theorems for the claims
-/

/-- C1: the broadcast loops of `send_message` and `_handle_bot_reply`
do NOT iterate a point-in-time snapshot of `members_of(room_id)`: they
iterate the live set.  Concretely, for a room whose member set is
`{A, B}` at the moment the broadcast begins, if a third connection `C`
joins the room while the emit to `A` is suspended, the resumed iterator
sees a size change and raises `RuntimeError`: the broadcast finishes
(by propagating the exception) with `B` — a member of the initial
snapshot — never delivered to, contradicting the claimed snapshot
semantics. -/
theorem broadcast_live_iteration_drops_snapshot_member :
    brun [BAct.next, BAct.join "C", BAct.next] (binit ["A", "B"]) =
      ⟨["A", "B", "C"], ["B"], 2, ["A"], true⟩ ∧
    bfinished (brun [BAct.next, BAct.join "C", BAct.next] (binit ["A", "B"])) = true ∧
    "B" ∉ (brun [BAct.next, BAct.join "C", BAct.next] (binit ["A", "B"])).delivered := by
  decide

/-- C4: the broadcast loops wrap `sio.emit` in no exception handler, so
a delivery failure to one member is NOT swallowed: with members
`[A, B]` where the emit to `A` raises, the loop delivers to nobody — in
particular not to the remaining member `B` — and the exception
propagates to the code after the loop. -/
theorem emit_failure_aborts_loop_and_propagates :
    emitLoop (fun c => c == "A") ["A", "B"] = ([], true) ∧
    "B" ∉ (emitLoop (fun c => c == "A") ["A", "B"]).1 := by
  decide

/-- Every room key surviving `disconnectTable` was a key before. -/
theorem disconnectTable_keys_subset (sid : String) :
    ∀ t : RoomTable, ∀ r ∈ roomIds (disconnectTable sid t), r ∈ roomIds t := by
  intro t
  induction t with
  | nil => simp [disconnectTable, roomIds]
  | cons p t ih =>
    obtain ⟨r, ms⟩ := p
    intro q hq
    simp only [disconnectTable] at hq
    by_cases hmem : sid ∈ ms
    · simp only [hmem, if_true] at hq
      by_cases hemp : ms.erase sid = []
      · simp only [hemp, if_true] at hq
        exact List.mem_cons_of_mem _ (ih q hq)
      · simp only [hemp, if_false] at hq
        simp only [roomIds, List.map_cons, List.mem_cons] at hq ⊢
        rcases hq with h | h
        · exact Or.inl h
        · exact Or.inr (ih q h)
    · simp only [hmem, if_false] at hq
      simp only [roomIds, List.map_cons, List.mem_cons] at hq ⊢
      rcases hq with h | h
      · exact Or.inl h
      · exact Or.inr (ih q h)

/-- After `disconnectTable sid`, `sid` is in no room's member set
(member lists model Python sets, hence the `Nodup` hypothesis). -/
theorem disconnectTable_not_mem (sid : String) :
    ∀ t : RoomTable, (∀ p ∈ t, (p.2 : List String).Nodup) →
      ∀ p ∈ disconnectTable sid t, sid ∉ p.2 := by
  intro t
  induction t with
  | nil => simp [disconnectTable]
  | cons q t ih =>
    obtain ⟨r, ms⟩ := q
    intro hset p hp
    have hmsnd : ms.Nodup := hset (r, ms) (List.mem_cons_self _ _)
    have hsett : ∀ p ∈ t, (p.2 : List String).Nodup :=
      fun p hp => hset p (List.mem_cons_of_mem _ hp)
    simp only [disconnectTable] at hp
    by_cases hmem : sid ∈ ms
    · simp only [hmem, if_true] at hp
      by_cases hemp : ms.erase sid = []
      · simp only [hemp, if_true] at hp
        exact ih hsett p hp
      · simp only [hemp, if_false, List.mem_cons] at hp
        rcases hp with h | h
        · subst h
          intro hin
          exact ((hmsnd.mem_erase_iff.mp hin).1) rfl
        · exact ih hsett p h
    · simp only [hmem, if_false, List.mem_cons] at hp
      rcases hp with h | h
      · subst h
        exact hmem
      · exact ih hsett p h

/-- After `disconnectTable sid`, no key maps to an empty member set
(given that none did before, the invariant the handlers maintain). -/
theorem disconnectTable_no_empty (sid : String) :
    ∀ t : RoomTable, (∀ p ∈ t, p.2 ≠ ([] : List String)) →
      ∀ p ∈ disconnectTable sid t, p.2 ≠ ([] : List String) := by
  intro t
  induction t with
  | nil => simp [disconnectTable]
  | cons q t ih =>
    obtain ⟨r, ms⟩ := q
    intro hne p hp
    have hnet : ∀ p ∈ t, p.2 ≠ ([] : List String) :=
      fun p hp => hne p (List.mem_cons_of_mem _ hp)
    simp only [disconnectTable] at hp
    by_cases hmem : sid ∈ ms
    · simp only [hmem, if_true] at hp
      by_cases hemp : ms.erase sid = []
      · simp only [hemp, if_true] at hp
        exact ih hnet p hp
      · simp only [hemp, if_false, List.mem_cons] at hp
        rcases hp with h | h
        · subst h
          exact hemp
        · exact ih hnet p h
    · simp only [hmem, if_false, List.mem_cons] at hp
      rcases hp with h | h
      · subst h
        exact hne (r, ms) (List.mem_cons_self _ _)
      · exact ih hnet p h

/-- A room whose member set was exactly `{sid}` is pruned: its key is
gone after `disconnectTable sid` (room keys are dict keys, hence
`Nodup`). -/
theorem disconnectTable_prunes (sid : String) :
    ∀ t : RoomTable, (roomIds t).Nodup →
      ∀ rid, membersOf rid t = [sid] → rid ∉ roomIds (disconnectTable sid t) := by
  intro t
  induction t with
  | nil => simp [membersOf]
  | cons q t ih =>
    obtain ⟨r, ms⟩ := q
    intro hkeys rid hm
    have hcons : (r :: roomIds t).Nodup := by
      simpa only [roomIds, List.map_cons] using hkeys
    have hkt : (roomIds t).Nodup := (List.nodup_cons.mp hcons).2
    have hrt : r ∉ roomIds t := (List.nodup_cons.mp hcons).1
    simp only [membersOf] at hm
    by_cases hr : r = rid
    · subst hr
      simp only [if_pos rfl] at hm
      subst hm
      simp only [disconnectTable, List.mem_singleton.mpr rfl, if_true,
        List.erase_cons_head, if_pos rfl]
      intro hin
      exact hrt (disconnectTable_keys_subset sid t r hin)
    · simp only [if_neg hr] at hm
      have hrec := ih hkt rid hm
      simp only [disconnectTable]
      by_cases hmem : sid ∈ ms
      · simp only [hmem, if_true]
        by_cases hemp : ms.erase sid = []
        · simp only [hemp, if_true]
          exact hrec
        · simp only [hemp, if_false, roomIds, List.map_cons, List.mem_cons]
          rintro (h | h)
          · exact hr h.symm
          · exact hrec h
      · simp only [hmem, if_false, roomIds, List.map_cons, List.mem_cons]
        rintro (h | h)
        · exact hr h.symm
        · exact hrec h

/-- C2: after the `disconnect` handler's membership sweep, `sid`
belongs to no room's member set, no key maps to an empty set, and every
room whose member set was exactly `{sid}` (so became empty by this
removal) is absent from the table.  The hypotheses are the dict/set
representation invariants: room keys are distinct, member lists are
duplicate-free, and no stored member set is empty. -/
theorem disconnect_removes_everywhere_and_prunes (sid : String) (t : RoomTable)
    (hkeys : (roomIds t).Nodup)
    (hset : ∀ p ∈ t, (p.2 : List String).Nodup)
    (hne : ∀ p ∈ t, p.2 ≠ ([] : List String)) :
    (∀ p ∈ disconnectTable sid t, sid ∉ p.2) ∧
    (∀ p ∈ disconnectTable sid t, p.2 ≠ ([] : List String)) ∧
    (∀ rid, membersOf rid t = [sid] → rid ∉ roomIds (disconnectTable sid t)) :=
  ⟨disconnectTable_not_mem sid t hset,
   disconnectTable_no_empty sid t hne,
   disconnectTable_prunes sid t hkeys⟩

/-- Witness for C2 at a concrete state: `A` is in rooms 1 and 2 and is
room 2's only member; after `disconnect("A")` it is nowhere, room 2's
key is gone, and no empty set remains. -/
theorem disconnect_removes_everywhere_and_prunes_witness :
    (∀ p ∈ disconnectTable "A" [(1, ["A", "B"]), (2, ["A"])], "A" ∉ p.2) ∧
    (∀ p ∈ disconnectTable "A" [(1, ["A", "B"]), (2, ["A"])], p.2 ≠ ([] : List String)) ∧
    (∀ rid, membersOf rid [(1, ["A", "B"]), (2, ["A"])] = ["A"] →
      rid ∉ roomIds (disconnectTable "A" [(1, ["A", "B"]), (2, ["A"])])) :=
  disconnect_removes_everywhere_and_prunes "A" [(1, ["A", "B"]), (2, ["A"])]
    (by decide) (by decide) (by decide)

/-- Adding a member already in the room's set leaves the table
unchanged (Python `set.add` on a present element). -/
theorem tableJoin_of_mem {sid : String} {rid : Nat} :
    ∀ t : RoomTable, sid ∈ membersOf rid t → tableJoin rid sid t = t := by
  intro t
  induction t with
  | nil => simp [membersOf]
  | cons p t ih =>
    obtain ⟨r, ms⟩ := p
    intro hm
    simp only [membersOf] at hm
    simp only [tableJoin]
    by_cases hr : r = rid
    · subst hr
      rw [if_pos rfl] at hm
      simp [setAdd, hm]
    · simp only [if_neg hr] at hm ⊢
      rw [ih hm]

/-- C9: a second successful `join_room` for a room the connection is
already a member of is not an error (it is acknowledged with
`room_joined`) and leaves the membership table — in particular that
room's member set and its cardinality — unchanged. -/
theorem join_room_idempotent (sid : String) (sess : Option SessionD)
    (data : Option ClientData) (findDb : Nat → Option Room) (t : RoomTable)
    (email : String) (room : Room)
    (hs : get_validated_email sess = some email)
    (hv : truthy (rawRoomId data) = true)
    (hd : isdigitStr (pyStr (rawRoomId data)) = true)
    (hf : findDb (pyToNat (rawRoomId data)) = some room)
    (hm : sid ∈ membersOf (pyToNat (rawRoomId data)) t) :
    (join_room sid sess data findDb t).table = t ∧
    (join_room sid sess data findDb t).emits =
      [⟨"room_joined", sid, .roomId (pyToNat (rawRoomId data))⟩] := by
  unfold join_room
  rw [hs]
  simp only [hv, hd, Bool.not_true, Bool.false_or, Bool.or_self, Bool.false_eq_true,
    if_false, hf]
  exact ⟨tableJoin_of_mem t hm, trivial⟩

/-- Witness for C9: connection `S` is already room 1's member; re-joining
room 1 changes nothing and yields `room_joined`. -/
theorem join_room_idempotent_witness :
    (join_room "S" (some [("user_email", "u@example.com")])
      (some ⟨some (.vStr "1"), none, none⟩)
      (fun _ => some ⟨1, "general"⟩) [(1, ["S"])]).table = [(1, ["S"])] ∧
    (join_room "S" (some [("user_email", "u@example.com")])
      (some ⟨some (.vStr "1"), none, none⟩)
      (fun _ => some ⟨1, "general"⟩) [(1, ["S"])]).emits =
      [⟨"room_joined", "S", .roomId (pyToNat (rawRoomId (some ⟨some (.vStr "1"), none, none⟩)))⟩] :=
  join_room_idempotent "S" (some [("user_email", "u@example.com")])
    (some ⟨some (.vStr "1"), none, none⟩) (fun _ => some ⟨1, "general"⟩)
    [(1, ["S"])] "u@example.com" ⟨1, "general"⟩
    (by decide) (by decide) (by decide) (by decide) (by decide)

/-- C6: for an authenticated connection and a well-formed room id the
store does not know, `join_room` emits the NotFound error to the
requester only and leaves the membership table completely unchanged (no
store-participant task is spawned either). -/
theorem join_room_notfound (sid : String) (sess : Option SessionD)
    (data : Option ClientData) (findDb : Nat → Option Room) (t : RoomTable)
    (email : String)
    (hs : get_validated_email sess = some email)
    (hv : truthy (rawRoomId data) = true)
    (hd : isdigitStr (pyStr (rawRoomId data)) = true)
    (hf : findDb (pyToNat (rawRoomId data)) = none) :
    join_room sid sess data findDb t =
      { noEffects t with
        emits := [⟨"error", sid,
          .errMsg ("Room with ID '" ++ toString (pyToNat (rawRoomId data)) ++ "' not found.")⟩],
        findCalls := [pyToNat (rawRoomId data)] } := by
  unfold join_room
  rw [hs]
  simp only [hv, hd, Bool.not_true, Bool.false_or, Bool.or_self, Bool.false_eq_true,
    if_false, hf]

/-- Witness for C6: an authenticated request for absent room 7 yields
exactly the NotFound emit and an unchanged table. -/
theorem join_room_notfound_witness :
    join_room "S" (some [("user_email", "u@example.com")])
      (some ⟨some (.vStr "7"), none, none⟩) (fun _ => none) [(1, ["S"])] =
      { noEffects [(1, ["S"])] with
        emits := [⟨"error", "S",
          .errMsg ("Room with ID '" ++
            toString (pyToNat (rawRoomId (some ⟨some (.vStr "7"), none, none⟩))) ++
            "' not found.")⟩],
        findCalls := [pyToNat (rawRoomId (some ⟨some (.vStr "7"), none, none⟩))] } :=
  join_room_notfound "S" (some [("user_email", "u@example.com")])
    (some ⟨some (.vStr "7"), none, none⟩) (fun _ => none) [(1, ["S"])]
    "u@example.com" (by decide) (by decide) (by decide) (by decide)

/-- C8 counterexample: the guard is
`not room_id_raw or not str(room_id_raw).isdigit()`, and the string
`"0"` is truthy with `"0".isdigit() == True`, so `join_room` accepts
the non-positive identifier `"0"`: it consults the store for room 0 and
emits no `InvalidInput` error — contradicting the claim that every
non-positive `room_id` is rejected without consulting the store. -/
theorem join_room_accepts_zero_string :
    (join_room "S" (some [("user_email", "u@example.com")])
      (some ⟨some (.vStr "0"), none, none⟩) (fun _ => none) []).findCalls = [0] ∧
    ∀ e ∈ (join_room "S" (some [("user_email", "u@example.com")])
      (some ⟨some (.vStr "0"), none, none⟩) (fun _ => none) []).emits,
      e.payload ≠ .errMsg "A valid Room ID is required" := by
  decide

/-- C8 amended: for an authenticated connection, `join_room` proceeds
past validation exactly when `room_id` is truthy and its string form is
all decimal digits (which admits the non-positive identifier `"0"`,
whose room is then looked up in the store); every other input —
missing, falsy, or non-digit — yields the `InvalidInput` error to the
requester and nothing else: no store call and no membership mutation. -/
theorem join_room_validation (sid : String) (sess : Option SessionD)
    (data : Option ClientData) (findDb : Nat → Option Room) (t : RoomTable)
    (email : String)
    (hs : get_validated_email sess = some email) :
    (¬(truthy (rawRoomId data) = true ∧ isdigitStr (pyStr (rawRoomId data)) = true) →
      join_room sid sess data findDb t =
        { noEffects t with
          emits := [⟨"error", sid, .errMsg "A valid Room ID is required"⟩] }) ∧
    (truthy (rawRoomId data) = true ∧ isdigitStr (pyStr (rawRoomId data)) = true →
      (join_room sid sess data findDb t).findCalls = [pyToNat (rawRoomId data)]) := by
  constructor
  · intro hbad
    unfold join_room
    rw [hs]
    have : (!truthy (rawRoomId data) || !isdigitStr (pyStr (rawRoomId data))) = true := by
      by_cases h : truthy (rawRoomId data) = true
      · have h2 : isdigitStr (pyStr (rawRoomId data)) = false :=
          Bool.eq_false_iff.mpr (fun h2 => hbad ⟨h, h2⟩)
        simp [h2]
      · have h1 : truthy (rawRoomId data) = false := Bool.eq_false_iff.mpr h
        simp [h1]
    simp only [this, if_true]
  · rintro ⟨hv, hd⟩
    unfold join_room
    rw [hs]
    simp only [hv, hd, Bool.not_true, Bool.or_self, Bool.false_eq_true, if_false]
    cases hf : findDb (pyToNat (rawRoomId data)) <;> simp

/-- Witness for the amended C8, on the rejecting side: a non-numeric
`room_id` gets exactly the `InvalidInput` emit and nothing else, and on
the accepting side the digit string `"0"` reaches the store lookup. -/
theorem join_room_validation_witness :
    (¬(truthy (rawRoomId (some ⟨some (.vStr "abc"), none, none⟩)) = true ∧
        isdigitStr (pyStr (rawRoomId (some ⟨some (.vStr "abc"), none, none⟩))) = true) →
      join_room "S" (some [("user_email", "u@example.com")])
        (some ⟨some (.vStr "abc"), none, none⟩) (fun _ => none) [(1, ["S"])] =
        { noEffects [(1, ["S"])] with
          emits := [⟨"error", "S", .errMsg "A valid Room ID is required"⟩] }) ∧
    (truthy (rawRoomId (some ⟨some (.vStr "abc"), none, none⟩)) = true ∧
        isdigitStr (pyStr (rawRoomId (some ⟨some (.vStr "abc"), none, none⟩))) = true →
      (join_room "S" (some [("user_email", "u@example.com")])
        (some ⟨some (.vStr "abc"), none, none⟩) (fun _ => none) [(1, ["S"])]).findCalls =
        [pyToNat (rawRoomId (some ⟨some (.vStr "abc"), none, none⟩))]) :=
  join_room_validation "S" (some [("user_email", "u@example.com")])
    (some ⟨some (.vStr "abc"), none, none⟩) (fun _ => none) [(1, ["S"])]
    "u@example.com" (by decide)

/-- C5: each of `create_room`, `join_room`, `send_message` and
`request_past_messages`, invoked by a connection whose session is
missing or lacks an authenticated identity, performs no store call,
spawns no task, mutates no membership, and emits exactly one
authentication error to the originating connection. -/
theorem unauthenticated_rejected (sid : String) (sess : Option SessionD)
    (data : Option ClientData)
    (saveDb : Nat → String → String → Bool → Option Msg)
    (findDb : Nat → Option Room) (createDb : String → Option Room)
    (listDb : Nat → Option (List Msg)) (t : RoomTable)
    (hs : get_validated_email sess = none) :
    create_room sid sess data createDb t = { noEffects t with emits := [authErrorEmit sid] } ∧
    join_room sid sess data findDb t = { noEffects t with emits := [authErrorEmit sid] } ∧
    send_message sid sess data saveDb t = { noEffects t with emits := [authErrorEmit sid] } ∧
    request_past_messages sid sess data listDb t =
      { noEffects t with emits := [authErrorEmit sid] } := by
  unfold create_room join_room send_message request_past_messages
  rw [hs]
  exact ⟨rfl, rfl, rfl, rfl⟩

/-- Witness for C5: a connection whose stored session lacks the
`"user_email"` key is turned away by all four handlers with only the
auth error emit. -/
theorem unauthenticated_rejected_witness :
    create_room "S" (some [("stale", "x")]) (some ⟨some (.vStr "1"), some "hi", some "r"⟩)
        (fun _ => none) [(1, ["S"])] =
      { noEffects [(1, ["S"])] with emits := [authErrorEmit "S"] } ∧
    join_room "S" (some [("stale", "x")]) (some ⟨some (.vStr "1"), some "hi", some "r"⟩)
        (fun _ => none) [(1, ["S"])] =
      { noEffects [(1, ["S"])] with emits := [authErrorEmit "S"] } ∧
    send_message "S" (some [("stale", "x")]) (some ⟨some (.vStr "1"), some "hi", some "r"⟩)
        (fun _ _ _ _ => none) [(1, ["S"])] =
      { noEffects [(1, ["S"])] with emits := [authErrorEmit "S"] } ∧
    request_past_messages "S" (some [("stale", "x")])
        (some ⟨some (.vStr "1"), some "hi", some "r"⟩) (fun _ => none) [(1, ["S"])] =
      { noEffects [(1, ["S"])] with emits := [authErrorEmit "S"] } :=
  unauthenticated_rejected "S" (some [("stale", "x")])
    (some ⟨some (.vStr "1"), some "hi", some "r"⟩) (fun _ _ _ _ => none) (fun _ => none)
    (fun _ => none) (fun _ => none) [(1, ["S"])] (by decide)

/-- C7: an authenticated `send_message` whose `room_id` is malformed
(falsy or not a digit string) or whose content is empty after trimming
is silently dropped: no emit of any kind, no store call, no membership
change, no bot task. -/
theorem send_message_silent_drop (sid : String) (sess : Option SessionD)
    (data : Option ClientData) (saveDb : Nat → String → String → Bool → Option Msg)
    (t : RoomTable) (email : String)
    (hs : get_validated_email sess = some email)
    (hbad : truthy (rawRoomId data) = false ∨ isdigitStr (pyStr (rawRoomId data)) = false ∨
      pyStrip (rawContent data) = "") :
    send_message sid sess data saveDb t = noEffects t := by
  unfold send_message
  rw [hs]
  have hcond : (!truthy (rawRoomId data) || !isdigitStr (pyStr (rawRoomId data)) ||
      (pyStrip (rawContent data) == "")) = true := by
    rcases hbad with h | h | h <;> simp [h]
  simp only [hcond, if_true]

/-- Witness for C7: all-whitespace content with a well-formed room id
produces literally no effect. -/
theorem send_message_silent_drop_witness :
    send_message "S" (some [("user_email", "u@example.com")])
      (some ⟨some (.vStr "1"), some "   ", none⟩) (fun _ _ _ _ => none) [(1, ["S"])] =
      noEffects [(1, ["S"])] :=
  send_message_silent_drop "S" (some [("user_email", "u@example.com")])
    (some ⟨some (.vStr "1"), some "   ", none⟩) (fun _ _ _ _ => none) [(1, ["S"])]
    "u@example.com" (by decide) (by decide)

/-- C3: on both the user path and the bot path, `new_message` fan-out
happens exactly when the store's save returned a persisted row, the
broadcast payload is that returned row (not the client's raw input),
and a failed save broadcasts nothing and surfaces no error. -/
theorem broadcast_iff_persisted (sid : String) (sess : Option SessionD)
    (data : Option ClientData) (saveDb : Nat → String → String → Bool → Option Msg)
    (t : RoomTable) (email : String) (room_id : Nat) (user_message : String)
    (gemini : String → String)
    (hs : get_validated_email sess = some email)
    (hv : truthy (rawRoomId data) = true)
    (hd : isdigitStr (pyStr (rawRoomId data)) = true)
    (hc : (pyStrip (rawContent data) == "") = false) :
    ((send_message sid sess data saveDb t).emits =
      match saveDb (pyToNat (rawRoomId data)) email (pyStrip (rawContent data)) false with
      | some m =>
        (membersOf (pyToNat (rawRoomId data)) t).map (fun c => ⟨"new_message", c, .msg m⟩)
      | none => []) ∧
    ((handle_bot_reply room_id user_message gemini saveDb t).emits =
      match saveDb room_id BOT_USER_EMAIL (gemini user_message) true with
      | some m => (membersOf room_id t).map (fun c => ⟨"new_message", c, .msg m⟩)
      | none => []) := by
  constructor
  · unfold send_message
    rw [hs]
    simp only [hv, hd, hc, Bool.not_true, Bool.false_or, Bool.or_false, Bool.or_self,
      Bool.false_eq_true, if_false]
    cases h : saveDb (pyToNat (rawRoomId data)) email (pyStrip (rawContent data)) false <;>
      simp [h, noEffects]
  · unfold handle_bot_reply
    cases h : saveDb room_id BOT_USER_EMAIL (gemini user_message) true <;>
      simp [h, noEffects]

/-- Witness for C3: with a store that persists user messages under a
server-rewritten row and fails bot saves, the user fan-out carries the
store's row and the bot path broadcasts nothing. -/
theorem broadcast_iff_persisted_witness :
    ((send_message "S" (some [("user_email", "u@example.com")])
        (some ⟨some (.vStr "1"), some " hi ", none⟩)
        (fun rid em c b => if b then none else some ⟨42, rid, em, c ++ "!", b⟩)
        [(1, ["S", "B"])]).emits =
      match (fun (rid : Nat) (em c : String) (b : Bool) =>
          if b then none else some (Msg.mk 42 rid em (c ++ "!") b))
          (pyToNat (rawRoomId (some ⟨some (.vStr "1"), some " hi ", none⟩)))
          "u@example.com"
          (pyStrip (rawContent (some ⟨some (.vStr "1"), some " hi ", none⟩))) false with
      | some m =>
        (membersOf (pyToNat (rawRoomId (some ⟨some (.vStr "1"), some " hi ", none⟩)))
          [(1, ["S", "B"])]).map (fun c => ⟨"new_message", c, .msg m⟩)
      | none => []) ∧
    ((handle_bot_reply 1 "hi" (fun _ => "reply")
        (fun rid em c b => if b then none else some ⟨42, rid, em, c ++ "!", b⟩)
        [(1, ["S", "B"])]).emits =
      match (fun (rid : Nat) (em c : String) (b : Bool) =>
          if b then none else some (Msg.mk 42 rid em (c ++ "!") b))
          1 BOT_USER_EMAIL ((fun (_ : String) => "reply") "hi") true with
      | some m => (membersOf 1 [(1, ["S", "B"])]).map (fun c => ⟨"new_message", c, .msg m⟩)
      | none => []) :=
  broadcast_iff_persisted "S" (some [("user_email", "u@example.com")])
    (some ⟨some (.vStr "1"), some " hi ", none⟩)
    (fun rid em c b => if b then none else some ⟨42, rid, em, c ++ "!", b⟩)
    [(1, ["S", "B"])] "u@example.com" 1 "hi" (fun _ => "reply")
    (by decide) (by decide) (by decide) (by decide)

/-- Every emit of a `new_message` fan-out carries the `new_message`
event name. -/
theorem fanout_event (m : Msg) :
    ∀ ms : List String, ∀ e ∈ ms.map (fun c => Emit.mk "new_message" c (.msg m)),
      e.event = "new_message" := by
  intro ms e he
  obtain ⟨c, _, rfl⟩ := List.mem_map.mp he
  rfl

/-- A connection receives a `new_message` fan-out iff it is in the
member list being fanned out to. -/
theorem fanout_target_iff (m : Msg) (ms : List String) (sid : String) :
    (∃ e ∈ ms.map (fun c => Emit.mk "new_message" c (.msg m)), e.target = sid) ↔
      sid ∈ ms := by
  constructor
  · rintro ⟨e, he, hts⟩
    obtain ⟨c, hc, rfl⟩ := List.mem_map.mp he
    have hcs : c = sid := hts
    exact hcs ▸ hc
  · intro hmem
    exact ⟨⟨"new_message", sid, .msg m⟩, List.mem_map_of_mem _ hmem, rfl⟩

/-- C10: an authenticated, well-formed, non-empty `send_message` never
consults `find_room_by_id_db` and never touches the membership table —
no membership or room-existence check.  The save is attempted
unconditionally; when it returns a row, the fan-out goes to exactly the
room's current member set (possibly empty), every emit is a
`new_message` (no error), and the sender receives the message iff it is
itself in that member set. -/
theorem send_message_no_checks (sid : String) (sess : Option SessionD)
    (data : Option ClientData) (saveDb : Nat → String → String → Bool → Option Msg)
    (t : RoomTable) (email : String)
    (hs : get_validated_email sess = some email)
    (hv : truthy (rawRoomId data) = true)
    (hd : isdigitStr (pyStr (rawRoomId data)) = true)
    (hc : (pyStrip (rawContent data) == "") = false) :
    (send_message sid sess data saveDb t).findCalls = [] ∧
    (send_message sid sess data saveDb t).table = t ∧
    (send_message sid sess data saveDb t).saveCalls =
      [(pyToNat (rawRoomId data), email, pyStrip (rawContent data), false)] ∧
    (∀ e ∈ (send_message sid sess data saveDb t).emits, e.event = "new_message") ∧
    (∀ m, saveDb (pyToNat (rawRoomId data)) email (pyStrip (rawContent data)) false = some m →
      ((send_message sid sess data saveDb t).emits =
        (membersOf (pyToNat (rawRoomId data)) t).map (fun c => ⟨"new_message", c, .msg m⟩) ∧
       ((∃ e ∈ (send_message sid sess data saveDb t).emits, e.target = sid) ↔
         sid ∈ membersOf (pyToNat (rawRoomId data)) t))) := by
  unfold send_message
  rw [hs]
  simp only [hv, hd, hc, Bool.not_true, Bool.false_or, Bool.or_false, Bool.or_self,
    Bool.false_eq_true, if_false]
  cases h : saveDb (pyToNat (rawRoomId data)) email (pyStrip (rawContent data)) false with
  | none =>
    refine ⟨rfl, rfl, rfl, ?_, ?_⟩
    · intro e he
      exact absurd he (List.not_mem_nil e)
    · intro m hm
      exact absurd hm (by simp)
  | some m =>
    refine ⟨rfl, rfl, rfl, fanout_event m _, ?_⟩
    intro m' hm'
    obtain rfl := Option.some_inj.mp hm'
    exact ⟨rfl, fanout_target_iff m _ sid⟩

/-- Witness for C10: the sender `S` is not a member of room 1 (only
`B` is), the room was never looked up, and `S` does not receive its own
message while `B` does. -/
theorem send_message_no_checks_witness :
    (send_message "S" (some [("user_email", "u@example.com")])
        (some ⟨some (.vStr "1"), some "hi", none⟩)
        (fun rid em c b => some ⟨7, rid, em, c, b⟩) [(1, ["B"])]).findCalls = [] ∧
    (send_message "S" (some [("user_email", "u@example.com")])
        (some ⟨some (.vStr "1"), some "hi", none⟩)
        (fun rid em c b => some ⟨7, rid, em, c, b⟩) [(1, ["B"])]).table = [(1, ["B"])] ∧
    (send_message "S" (some [("user_email", "u@example.com")])
        (some ⟨some (.vStr "1"), some "hi", none⟩)
        (fun rid em c b => some ⟨7, rid, em, c, b⟩) [(1, ["B"])]).saveCalls =
      [(pyToNat (rawRoomId (some ⟨some (.vStr "1"), some "hi", none⟩)), "u@example.com",
        pyStrip (rawContent (some ⟨some (.vStr "1"), some "hi", none⟩)), false)] ∧
    (∀ e ∈ (send_message "S" (some [("user_email", "u@example.com")])
        (some ⟨some (.vStr "1"), some "hi", none⟩)
        (fun rid em c b => some ⟨7, rid, em, c, b⟩) [(1, ["B"])]).emits,
      e.event = "new_message") ∧
    (∀ m, (fun (rid : Nat) (em c : String) (b : Bool) => some (Msg.mk 7 rid em c b))
        (pyToNat (rawRoomId (some ⟨some (.vStr "1"), some "hi", none⟩))) "u@example.com"
        (pyStrip (rawContent (some ⟨some (.vStr "1"), some "hi", none⟩))) false = some m →
      ((send_message "S" (some [("user_email", "u@example.com")])
          (some ⟨some (.vStr "1"), some "hi", none⟩)
          (fun rid em c b => some ⟨7, rid, em, c, b⟩) [(1, ["B"])]).emits =
        (membersOf (pyToNat (rawRoomId (some ⟨some (.vStr "1"), some "hi", none⟩)))
          [(1, ["B"])]).map (fun c => ⟨"new_message", c, .msg m⟩) ∧
       ((∃ e ∈ (send_message "S" (some [("user_email", "u@example.com")])
            (some ⟨some (.vStr "1"), some "hi", none⟩)
            (fun rid em c b => some ⟨7, rid, em, c, b⟩) [(1, ["B"])]).emits,
          e.target = "S") ↔
         "S" ∈ membersOf (pyToNat (rawRoomId (some ⟨some (.vStr "1"), some "hi", none⟩)))
           [(1, ["B"])]))) :=
  send_message_no_checks "S" (some [("user_email", "u@example.com")])
    (some ⟨some (.vStr "1"), some "hi", none⟩)
    (fun rid em c b => some ⟨7, rid, em, c, b⟩) [(1, ["B"])] "u@example.com"
    (by decide) (by decide) (by decide) (by decide)
